import Mathlib

/-!
# Verification of the plotter-studio API core

Shallow embedding of the plot supervisor, output-stream parser and SVG
rotation engine of `apps/api` (files `core/nextdraw.py`, `core/state.py`,
`core/schemas.py`, `routes/plot.py`, `routes/svg.py`, `rotation.py`),
together with proofs that settle the specification claims.

Numeric values are modelled as `ℚ` (Python floats are read from and
written to decimal text in the code under study; all quantities the
claims mention are compared with explicit decimal tolerances).  Strings
are modelled as `String`; the ASCII fragments of Python's `str.lower`,
`str.strip` and the character classes of the regexes are modelled
character by character.
-/

deriving instance DecidableEq for Except

namespace PlotterStudio

/-! ## Character and string primitives

ASCII models of the Python string operations used by the code:
`str.strip`, `str.lower`, the regex classes `\s`, `\d`, `[a-zA-Z]`,
`[0-9.]`, and substring search (`in`). -/

/-- Python `\s` / `str.strip` whitespace (ASCII): space, `\t`, `\n`, `\r`,
`\v`, `\f`. -/
def pyWs (c : Char) : Bool :=
  c.toNat = 32 || c.toNat = 9 || c.toNat = 10 || c.toNat = 13 ||
  c.toNat = 11 || c.toNat = 12

/-- ASCII decimal digit, the `[0-9]` / `\d` class of the regexes. -/
def isDigitC (c : Char) : Bool :=
  48 ≤ c.toNat && c.toNat ≤ 57

/-- ASCII letter, the `[a-zA-Z]` class of `DIST_RE`. -/
def isAlphaC (c : Char) : Bool :=
  (65 ≤ c.toNat && c.toNat ≤ 90) || (97 ≤ c.toNat && c.toNat ≤ 122)

/-- The `[0-9.]` class captured by `PROGRESS_RE` and `DIST_RE`. -/
def isNumC (c : Char) : Bool :=
  isDigitC c || c.toNat = 46

/-- ASCII lower-casing of one character (`str.lower` on the ASCII range). -/
def toLowerC (c : Char) : Char :=
  if 65 ≤ c.toNat ∧ c.toNat ≤ 90 then Char.ofNat (c.toNat + 32) else c

/-- Python `str.lower` (ASCII fragment). -/
def pyLower (s : String) : String :=
  String.mk (s.toList.map toLowerC)

/-- Python `str.strip()`. -/
def pyStrip (s : String) : String :=
  String.mk (((s.toList.dropWhile pyWs).reverse.dropWhile pyWs).reverse)

/-- Python substring test `needle in hay`. -/
def containsSub (needle hay : String) : Bool :=
  decide (needle.toList <:+: hay.toList)

/-- Numeric value of a list of ASCII digits (most significant first). -/
def digitsToNat (l : List Char) : ℕ :=
  l.foldl (fun a c => 10 * a + (c.toNat - 48)) 0

/-- Python `min(a, b)` on two numbers (the first argument on ties). -/
def pyMin (a b : ℚ) : ℚ :=
  if a ≤ b then a else b

/-- Python `max(a, b)` on two numbers (the first argument on ties). -/
def pyMax (a b : ℚ) : ℚ :=
  if b ≤ a then a else b

/-- Python `float` restricted to the strings captured by the `[0-9.]+`
groups of `PROGRESS_RE` and `DIST_RE`: defined when the text has at least
one digit and at most one dot, raising `ValueError` (`none`) otherwise
(e.g. `float("...")` or `float("1.2.3")`). -/
def pyFloatDigits? (s : String) : Option ℚ :=
  let cs := s.toList
  if cs.all isNumC && cs.any isDigitC && cs.count '.' ≤ 1 then
    let ip := cs.takeWhile (fun c => c ≠ '.')
    let fp := (cs.dropWhile (fun c => c ≠ '.')).drop 1
    some ((digitsToNat ip : ℚ) + (digitsToNat fp : ℚ) / 10 ^ fp.length)
  else none

/-! ## Regex search

The three patterns of `core/nextdraw.py` are anchored alternation-label
patterns; `re.search` semantics is: try a match at every position from
the left, returning the first position that matches.  `matchPrefixCI`
matches a lower-case literal pattern case-insensitively at the head of
the input and returns the rest. -/

/-- Case-insensitive literal match at the head; the pattern is given in
lower case.  Returns the unconsumed input on success. -/
def matchPrefixCI : List Char → List Char → Option (List Char)
  | [], s => some s
  | _ :: _, [] => none
  | p :: ps, c :: cs => if toLowerC c = p then matchPrefixCI ps cs else none

/-- Leftmost-position search: apply the position matcher `f` at every
suffix from the left, returning the first success (`re.search`). -/
def firstSome (f : List Char → Option α) : List Char → Option α
  | [] => f []
  | c :: cs =>
    match f (c :: cs) with
    | some r => some r
    | none => firstSome f cs

/-- One-position matcher for
`PROGRESS_RE = (?:Progress|Percent complete):\s*([0-9.]+)\s*%`
(`re.IGNORECASE`); returns the captured `[0-9.]+` group. -/
def progressMatchAt (s : List Char) : Option (List Char) :=
  let rest? :=
    match matchPrefixCI "progress:".toList s with
    | some r => some r
    | none => matchPrefixCI "percent complete:".toList s
  match rest? with
  | none => none
  | some r =>
    let r1 := r.dropWhile pyWs
    let num := r1.takeWhile isNumC
    let r2 := r1.dropWhile isNumC
    if num = [] then none
    else
      match r2.dropWhile pyWs with
      | '%' :: _ => some num
      | _ => none

/-- `PROGRESS_RE.search(line)`, returning the captured group text. -/
def progressSearch (line : String) : Option String :=
  (firstSome progressMatchAt line.toList).map fun l => String.mk l

/-- One-position matcher for
`TIME_RE = (?:Elapsed|Time):\s*(\d+):(\d+)(?::(\d+))?` (`re.IGNORECASE`);
returns the numeric values of the two mandatory groups and the optional
third group. -/
def timeMatchAt (s : List Char) : Option (ℕ × ℕ × Option ℕ) :=
  let rest? :=
    match matchPrefixCI "elapsed:".toList s with
    | some r => some r
    | none => matchPrefixCI "time:".toList s
  match rest? with
  | none => none
  | some r =>
    let r1 := r.dropWhile pyWs
    let d1 := r1.takeWhile isDigitC
    let r2 := r1.dropWhile isDigitC
    if d1 = [] then none
    else
      match r2 with
      | ':' :: r3 =>
        let d2 := r3.takeWhile isDigitC
        let r4 := r3.dropWhile isDigitC
        if d2 = [] then none
        else
          let g3 :=
            match r4 with
            | ':' :: r5 =>
              let d3 := r5.takeWhile isDigitC
              if d3 = [] then none else some (digitsToNat d3)
            | _ => none
          some (digitsToNat d1, digitsToNat d2, g3)
      | _ => none

/-- `TIME_RE.search(line)`. -/
def timeSearch (line : String) : Option (ℕ × ℕ × Option ℕ) :=
  firstSome timeMatchAt line.toList

/-- One-position matcher for
`DIST_RE = (?:Distance|draw):\s*([0-9.]+)\s*([a-zA-Z]*)` (`re.IGNORECASE`);
returns the captured number text and unit text. -/
def distMatchAt (s : List Char) : Option (List Char × List Char) :=
  let rest? :=
    match matchPrefixCI "distance:".toList s with
    | some r => some r
    | none => matchPrefixCI "draw:".toList s
  match rest? with
  | none => none
  | some r =>
    let r1 := r.dropWhile pyWs
    let num := r1.takeWhile isNumC
    let r2 := r1.dropWhile isNumC
    if num = [] then none
    else some (num, (r2.dropWhile pyWs).takeWhile isAlphaC)

/-- `DIST_RE.search(line)`. -/
def distSearch (line : String) : Option (List Char × List Char) :=
  firstSome distMatchAt line.toList

/-! ## Job State (`core/state.py`) and the background reader
(`_watch_plot_progress`, `core/nextdraw.py` lines 244-304)

A `subprocess.Popen` handle is modelled by `ProcHandle`; the `gen` field
is a unique tag so that record equality models Python object identity
(`is`).  `alive` models `poll() is None` at the moment the handle is
inspected. -/

structure ProcHandle where
  pid : ℤ
  alive : Bool
  gen : ℕ
deriving DecidableEq, Repr

/-- The singleton `JOB` dict of `core/state.py`; `elapsed_override` and
`model` are keys added dynamically (reading an absent key with `.get`
yields `None`, modelled by starting at `none`). -/
structure JobState where
  proc : Option ProcHandle
  file : Option String
  progress : Option ℚ
  start_time : Option ℚ
  end_time : Option ℚ
  distance_mm : Option ℚ
  error : Option String
  elapsed_override : Option ℚ
  model : Option String
deriving DecidableEq, Repr

/-- The initial `JOB` record of `core/state.py`. -/
def jobInit : JobState :=
  { proc := none, file := none, progress := none, start_time := none
    end_time := none, distance_mm := none, error := none
    elapsed_override := none, model := none }

/-- The `PROGRESS_RE` block of the reader loop (`nextdraw.py` 257-263).
`none` models the `except ValueError: continue`, which abandons the rest
of the loop body for that line. -/
def progressStep (st : JobState) (line : String) : Option JobState :=
  match progressSearch line with
  | none => some st
  | some cap =>
    match pyFloatDigits? cap with
    | none => none
    | some v => some { st with progress := some (pyMax 0 (pyMin v 100)) }

/-- The `TIME_RE` block of the reader loop (`nextdraw.py` 264-274):
groups are `minutes:seconds` or, when the third group is present,
`hours:minutes:seconds`. -/
def timeStep (st : JobState) (line : String) : JobState :=
  match timeSearch line with
  | none => st
  | some (g1, g2, g3) =>
    let hms : ℕ × ℕ × ℕ :=
      match g3 with
      | some s3 => (g1, g2, s3)
      | none => (0, g1, g2)
    let total : ℕ := hms.1 * 3600 + hms.2.1 * 60 + hms.2.2
    { st with elapsed_override := some (total : ℚ) }

/-- Unit factor table of the `DIST_RE` block (`nextdraw.py` 283-292);
`none` means no `distance_mm` assignment happens. -/
def distUnitFactor (unit : String) : Option ℚ :=
  if unit = "" ∨ unit = "mm" ∨ unit = "millimeter" ∨ unit = "millimeters" then
    some 1
  else if unit = "cm" ∨ unit = "centimeter" ∨ unit = "centimeters" then
    some 10
  else if unit = "m" ∨ unit = "meter" ∨ unit = "meters" then
    some 1000
  else if unit = "in" ∨ unit = "inch" ∨ unit = "inches" then
    some (254 / 10)
  else none

/-- The `DIST_RE` block of the reader loop (`nextdraw.py` 277-292). -/
def distStep (st : JobState) (line : String) : JobState :=
  match distSearch line with
  | none => st
  | some (numCs, unitCs) =>
    match pyFloatDigits? (String.mk numCs) with
    | none => st
    | some v =>
      let unit := pyLower (pyStrip (String.mk unitCs))
      match distUnitFactor unit with
      | some f => { st with distance_mm := some (v * f) }
      | none => st

/-- One iteration of the reader loop (`nextdraw.py` 251-292): strip the
line, skip it when empty, then run the three pattern blocks in order.
A `ValueError` in the progress block `continue`s past the other two. -/
def watchLine (st : JobState) (raw : String) : JobState :=
  let line := pyStrip raw
  if line = "" then st
  else
    match progressStep st line with
    | none => st
    | some st1 => distStep (timeStep st1 line) line

/-- The `finally` block of `_watch_plot_progress` (`nextdraw.py` 294-304):
all of its Job State writes are guarded by the handle-identity test
`JOB.get("proc") is proc`. -/
def watchFinal (proc : ProcHandle) (returncode : ℤ) (now : ℚ)
    (logLines : List String) (st : JobState) : JobState :=
  if st.proc = some proc then
    let st1 := { st with proc := none, end_time := some now }
    if returncode = 0 then
      { st1 with progress := some 100, error := none }
    else
      let outputText := pyStrip ("\n".intercalate logLines)
      { st1 with progress := none
                 error := some (if outputText ≠ "" then outputText
                                else s!"nextdraw exited with code {returncode}") }
  else st

/-- The `deque(maxlen=200)` ring buffer of stripped non-empty lines. -/
def ringBuffer (lines : List String) : List String :=
  let l := (lines.map pyStrip).filter (fun x => x ≠ "")
  l.drop (l.length - 200)

/-- `_watch_plot_progress` as a whole: fold the reader loop over the
streamed lines of process `proc`, then run the guarded `finally` block
with the process's exit code. -/
def watchPlotProgress (proc : ProcHandle) (lines : List String)
    (returncode : ℤ) (now : ℚ) (st : JobState) : JobState :=
  watchFinal proc returncode now (ringBuffer lines) (lines.foldl watchLine st)

/-! ## Model resolution and command building
(`_get_model_number`, `nextdraw.py` lines 31-62 and 490-519) -/

/-- Digit run with Python `int`-literal underscores: an underscore must
sit between two digits. -/
def underscoredDigits : List Char → Bool
  | [] => true
  | '_' :: [] => false
  | '_' :: c :: r => isDigitC c && underscoredDigits r
  | c :: r => isDigitC c && underscoredDigits r

/-- Python `int(s)` on a decimal string: optional surrounding whitespace,
optional sign, then digits (underscores allowed between digits);
`ValueError` is `none`. -/
def pyIntStr? (s : String) : Option ℤ :=
  let t := (pyStrip s).toList
  let signRest : ℤ × List Char :=
    match t with
    | '+' :: r => (1, r)
    | '-' :: r => (-1, r)
    | r => (1, r)
  match signRest.2 with
  | [] => none
  | c :: r =>
    if isDigitC c && underscoredDigits r then
      some (signRest.1 * (digitsToNat ((c :: r).filter (fun x => x ≠ '_')) : ℤ))
    else none

/-- `NEXTDRAW_MODEL_MAP` (`nextdraw.py` 32-43). -/
def NEXTDRAW_MODEL_MAP : List (String × ℤ) :=
  [("AxiDraw V2, V3, or SE/A4", 1),
   ("AxiDraw V3/A3 or SE/A3", 2),
   ("AxiDraw V3 XLX", 3),
   ("AxiDraw MiniKit", 4),
   ("AxiDraw SE/A1", 5),
   ("AxiDraw SE/A2", 6),
   ("AxiDraw V3/B6", 7),
   ("Bantam Tools NextDraw™ 8511 (Default)", 8),
   ("Bantam Tools NextDraw™ 1117", 9),
   ("Bantam Tools NextDraw™ 2234", 10)]

/-- `_get_model_number` (`nextdraw.py` 46-62): `None`/empty resolve to no
model; exact map names resolve through the map; decimal strings in
`1..10` are used directly; anything else defaults to model 8. -/
def getModelNumber (modelName : Option String) : Option ℤ :=
  match modelName with
  | none => none
  | some s =>
    if s = "" then none
    else
      match NEXTDRAW_MODEL_MAP.lookup s with
      | some n => some n
      | none =>
        match pyIntStr? s with
        | some n => if 1 ≤ n ∧ n ≤ 10 then some n else some 8
        | none => some 8

/-- The `-L<n>` flag (`nextdraw.py` 493-494): appended only when a model
number resolved and is non-zero (`if model_number:`). -/
def modelArgs (modelNumber : Option ℤ) : List String :=
  match modelNumber with
  | some n => if n ≠ 0 then [s!"-L{n}"] else []
  | none => []

/-- The handling flags (`nextdraw.py` 508-512): handling 5 means "no
special handling"; handling 4 additionally carries a speed override. -/
def handlingArgs (handling speed : ℤ) : List String :=
  if handling = 5 then []
  else
    ["--handling", toString handling] ++
    (if handling = 4 then ["-s", toString speed] else [])

/-- The penlift flag (`nextdraw.py` 514-515), valid only in `{1,2,3}`. -/
def penliftArgs (penlift : Option ℤ) : List String :=
  match penlift with
  | some p => if p = 1 ∨ p = 2 ∨ p = 3 then ["--penlift", toString p] else []
  | none => []

/-- The argument vector after the model flag (`nextdraw.py` 495-519). -/
def plotRestArgs (usePath : String) (sDown sUp pDown pUp handling speed : ℤ)
    (penlift : Option ℤ) (noHoming : Bool) (layer : Option String) :
    List String :=
  [usePath, "--speed_pendown", toString sDown, "--speed_penup", toString sUp,
   "--pen_pos_down", toString pDown, "--pen_pos_up", toString pUp,
   "--progress"]
  ++ handlingArgs handling speed ++ penliftArgs penlift
  ++ (if noHoming then ["--no_homing"] else [])
  ++ (match layer with
      | some l => if l ≠ "" then ["--layer", l] else []
      | none => [])

/-- The whole plot argument vector (`nextdraw.py` 492-519). -/
def buildPlotCmd (base : List String) (modelNumber : Option ℤ)
    (usePath : String) (sDown sUp pDown pUp handling speed : ℤ)
    (penlift : Option ℤ) (noHoming : Bool) (layer : Option String) :
    List String :=
  base ++ modelArgs modelNumber ++
  plotRestArgs usePath sDown sUp pDown pUp handling speed penlift noHoming layer

/-! ## Starting a plot (`_start_plot_from_path`, `nextdraw.py` 435-626) -/

/-- The success-despite-zero-exit marker test (`nextdraw.py` 579-584). -/
def suspiciousOutput (outputText : String) : Bool :=
  let l := pyLower outputText
  containsSub "error" l || containsSub "no nextdraw" l || containsSub "no devices" l

/-- The JSON payload returned by a successful start. -/
structure PlotResponse where
  ok : Bool
  pid : ℤ
  file : Option String
  cmd : String
  page : String
  completed : Bool
  offline : Bool
  output : Option String
deriving DecidableEq, Repr

/-- `pathlib.Path(name).name`: last path component, trailing slashes
dropped. -/
def pyBasename (s : String) : String :=
  String.mk
    (((s.toList.reverse.dropWhile (fun c => c = '/')).takeWhile
        (fun c => c ≠ '/')).reverse)

/-- `pathlib.Path(n).stem` for a bare file name: the name without its
last suffix; a dot at the start or end does not begin a suffix. -/
def pyStem (n : String) : String :=
  let cs := n.toList
  match cs.reverse.findIdx? (fun c => c = '.') with
  | none => n
  | some j =>
    let i := cs.length - 1 - j
    if 0 < i ∧ i < cs.length - 1 then String.mk (cs.take i) else n

/-- `_sanitize_filename` (`core/utils.py` 5-13). -/
def sanitizeFilename (name : String) : Except (ℕ × String) String :=
  if name = "" then .error (400, "Filename is required")
  else
    let safe := String.mk ((pyBasename name).toList.map
      (fun c => if isAlphaC c || isDigitC c || c = '.' || c = '_' || c = '-'
                then c else '_'))
    if (pyLower safe).endsWith ".svg" then .ok safe
    else .error (400, "Only .svg files are supported")

/-- The page flag (`nextdraw.py` 464). -/
def pageFlagOf (page : String) : String :=
  let lw := pyLower page
  if page ≠ "" ∧ (lw = "a3" ∨ lw = "a4" ∨ lw = "a5" ∨ lw = "a6") then lw
  else "a5"

/-- External-world inputs of one `_start_plot_from_path` call: the
resolved base command, filesystem and subprocess outcomes, the optional
`vpype` centering result, the spawned handle, the 200&nbsp;ms poll
result, the drained output on immediate exit, the fallback distance
estimate, and the two `time.time()` readings. -/
structure StartEnv where
  base : List String
  tempDir : String
  fileExists : Bool
  offline : Bool
  vpypeFound : Bool
  vpypeReturncode : ℤ
  newProc : ProcHandle
  pollResult : Option ℤ
  immediateOutput : String
  estimate : Option ℚ
  now : ℚ
  endNow : ℚ
deriving Repr

/-- Caller-supplied parameters of `_start_plot_from_path`. -/
structure StartParams where
  svgName : String
  originalName : Option String
  page : String
  sDown : ℤ
  sUp : ℤ
  pDown : ℤ
  pUp : ℤ
  handling : ℤ
  speed : ℤ
  penlift : Option ℤ
  noHoming : Bool
  model : Option String
  layer : Option String
deriving Repr

/-- The name of the working copy actually plotted: the sanitized source
name, replaced by its `-fixed.svg` variant when the `vpype` centering
step ran and succeeded (`nextdraw.py` 458-488). -/
def useNameOf (env : StartEnv) (targetName : String) : String :=
  if env.offline then targetName
  else if ¬ env.vpypeFound then targetName
  else if env.vpypeReturncode = 0 then pyStem targetName ++ "-fixed.svg"
  else targetName

/-- The immediate-exit classification (`nextdraw.py` 569-615): the
process already exited at the 200&nbsp;ms poll; its output is drained and
the result is classified, including the success-despite-zero-exit
heuristic.  The error side of the result carries the HTTP status and
detail of the raised `HTTPException`. -/
def classifyImmediateExit (returncode : ℤ) (stdoutData : String) (now : ℚ)
    (pid : ℤ) (cmdStr pageFlag : String) (st : JobState) :
    JobState × Except (ℕ × String) PlotResponse :=
  let outputText := pyStrip stdoutData
  let st1 := { st with proc := none, end_time := some now, elapsed_override := none }
  if returncode = 0 then
    if outputText ≠ "" ∧ suspiciousOutput outputText then
      ({ st1 with progress := none, error := some outputText },
       .error (500, outputText))
    else
      ({ st1 with progress := some 100, error := none },
       .ok {
        ok := true, pid := pid, file := st1.file, cmd := cmdStr,
        page := pageFlag, completed := true, offline := false,
        output := if outputText ≠ "" then some outputText else none })
  else
    let err := if outputText ≠ "" then outputText
               else s!"nextdraw exited with code {returncode}"
    ({ st1 with progress := none, error := some err }, .error (500, err))

/-- `_start_plot_from_path` after the conflict and existence guards
(`nextdraw.py` 456-626). -/
def startPlotGo (env : StartEnv) (p : StartParams) (st : JobState) :
    JobState × Except (ℕ × String) PlotResponse :=
  let st := { st with error := none }
  match sanitizeFilename ((p.originalName).getD p.svgName) with
  | .error e => (st, .error e)
  | .ok targetName =>
    let pageFlag := pageFlagOf p.page
    let useName := useNameOf env targetName
    let usePath := env.tempDir ++ "/" ++ useName
    let modelNumber := getModelNumber p.model
    let cmd := buildPlotCmd env.base modelNumber usePath p.sDown p.sUp p.pDown
      p.pUp p.handling p.speed p.penlift p.noHoming p.layer
    let cmdStr := " ".intercalate cmd
    let currentName := useName
    if env.offline then
      let newDist : Option ℚ :=
        match st.distance_mm with
        | some d => if d = 0 then env.estimate else some d
        | none => env.estimate
      let st1 := { st with
        proc := none, file := some currentName,
        progress := some 100, start_time := some env.now,
        end_time := some env.now, distance_mm := newDist,
        elapsed_override := some 0, error := none, model := p.model }
      (st1, .ok {
        ok := true, pid := 0, file := some currentName,
        cmd := cmdStr, page := pageFlag, completed := true, offline := true,
        output := some "offline mode: command logged but not executed" })
    else
      let st1 := { st with proc := some env.newProc }
      let st2 := if st1.file ≠ some currentName
                 then { st1 with distance_mm := none } else st1
      let st3 := { st2 with
        file := some currentName, progress := some 0,
        start_time := some env.now, end_time := none, model := p.model }
      let st4 := if st3.distance_mm = none
                 then { st3 with distance_mm := env.estimate } else st3
      let st5 := { st4 with elapsed_override := none }
      match env.pollResult with
      | some rc =>
        classifyImmediateExit rc env.immediateOutput env.endNow
          env.newProc.pid cmdStr pageFlag st5
      | none =>
        (st5, .ok {
          ok := true, pid := env.newProc.pid, file := st5.file,
          cmd := cmdStr, page := pageFlag, completed := false,
          offline := false, output := none })

/-- `_start_plot_from_path` (`nextdraw.py` 435-626): reject with 409 when
the current handle is live, with 404 when the source file is missing,
then stage and launch. -/
def startPlotFromPath (env : StartEnv) (p : StartParams) (st : JobState) :
    JobState × Except (ℕ × String) PlotResponse :=
  if (match st.proc with | some ph => ph.alive | none => false) then
    (st, .error (409, "A job is already running"))
  else if ¬ env.fileExists then
    (st, .error (404, "SVG not found"))
  else startPlotGo env p st

/-! ## Rotation engine (`rotation.py`, `routes/svg.py`, `core/schemas.py`)

An SVG document is modelled by the attributes the rotation engine reads
and writes.  `viewBox` holds the parsed quadruple, `none` when the
attribute is absent or does not parse as four floats (the code treats
both alike: it falls through to the width/height derivation and then
overwrites the attribute).  `width`/`height` are attribute strings;
the code always reads them through `root.get("width") or ""` or
`root.get("width", "")`, so an absent attribute and the empty string are
indistinguishable to it and both are modelled by `""`.  The wrapper
`<g>`'s metadata attributes live in `baseViewbox`/`baseWidth`/
`baseHeight`/`angleAttr`/`transform`, each `none` when absent. -/

structure SvgDoc where
  viewBox : Option (ℚ × ℚ × ℚ × ℚ)
  width : String
  height : String
  hasWrapper : Bool
  baseViewbox : Option (ℚ × ℚ × ℚ × ℚ)
  baseWidth : Option String
  baseHeight : Option String
  angleAttr : Option ℤ
  transform : Option (ℤ × ℚ × ℚ)
deriving DecidableEq, Repr

/-- The unit class `[a-zA-Z%]` of `_parse_length_to_px`. -/
def isUnitC (c : Char) : Bool :=
  isAlphaC c || c = '%'

/-- The optional exponent `(?:[eE][+-]?\d+)?` of `_parse_length_to_px`:
returns the exponent and the unconsumed input, or `none` when the
exponent alternative cannot match (the `e` is then left for the unit
group). -/
def parseExp? (rest : List Char) : Option (ℤ × List Char) :=
  match rest with
  | c :: r1 =>
    if c = 'e' ∨ c = 'E' then
      let sgnRest : ℤ × List Char :=
        match r1 with
        | '+' :: rr => (1, rr)
        | '-' :: rr => (-1, rr)
        | rr => (1, rr)
      let d := sgnRest.2.takeWhile isDigitC
      if d = [] then none
      else some (sgnRest.1 * (digitsToNat d : ℤ), sgnRest.2.dropWhile isDigitC)
    else none
  | [] => none

/-- The unit factor table of `_parse_length_to_px` (`rotation.py` 38-47);
`none` models both a failed dictionary lookup and the
`numeric * factor if factor else None` fall-through. -/
def pxFactor (unit : String) : Option ℚ :=
  if unit = "" ∨ unit = "px" then some 1
  else if unit = "mm" then some (960 / 254)
  else if unit = "cm" then some (9600 / 254)
  else if unit = "in" then some 96
  else if unit = "pt" then some (96 / 72)
  else none

/-- `_parse_length_to_px` (`rotation.py` 25-47): anchored match of
`[+-]? (\d+\.\d+ | \d+ | \.\d+) ([eE][+-]?\d+)? [a-zA-Z%]*` on the
stripped value, times the unit factor. -/
def parseLengthToPx (value : String) : Option ℚ :=
  if value = "" then none
  else
    let text := (pyStrip value).toList
    let signRest : ℚ × List Char :=
      match text with
      | '+' :: r => (1, r)
      | '-' :: r => (-1, r)
      | r => (1, r)
    let t1 := signRest.2
    let d1 := t1.takeWhile isDigitC
    let t2 := t1.dropWhile isDigitC
    let mant? : Option (ℚ × List Char) :=
      match t2 with
      | '.' :: t3 =>
        let d2 := t3.takeWhile isDigitC
        if d2 = [] then none
        else some ((digitsToNat d1 : ℚ) + (digitsToNat d2 : ℚ) / 10 ^ d2.length,
                   t3.dropWhile isDigitC)
      | _ => if d1 = [] then none else some ((digitsToNat d1 : ℚ), t2)
    match mant? with
    | none => none
    | some (mant, rest) =>
      let numRest : ℚ × List Char :=
        match parseExp? rest with
        | some (e, r) => (mant * (10 : ℚ) ^ e, r)
        | none => (mant, rest)
      if numRest.2.all isUnitC then
        match pxFactor (pyLower (String.mk numRest.2)) with
        | some f => some (signRest.1 * numRest.1 * f)
        | none => none
      else none

/-- Error outcomes of the rotation flow (the `HTTPException`s of
`rotation.py` and `routes/svg.py`). -/
inductive RotError
  | badDims
  | badAngle
deriving DecidableEq, Repr

/-- `_ensure_viewbox` (`rotation.py` 49-66): return the parsed viewBox,
or derive one from the width/height attributes, write it back and return
it; 400 when neither is available. -/
def ensureViewbox (doc : SvgDoc) : Except RotError ((ℚ × ℚ × ℚ × ℚ) × SvgDoc) :=
  match doc.viewBox with
  | some vb => .ok (vb, doc)
  | none =>
    match parseLengthToPx doc.width, parseLengthToPx doc.height with
    | some w, some h => .ok ((0, 0, w, h), { doc with viewBox := some (0, 0, w, h) })
    | _, _ => .error .badDims

/-- `_ensure_rotation_wrapper` plus the store-base-attributes-if-missing
block (`rotation.py` 100-107).  A freshly created wrapper starts without
attributes; the base attributes and angle are written only when the
base-viewbox attribute is missing. -/
def ensureMeta (doc : SvgDoc) (vb : ℚ × ℚ × ℚ × ℚ) : SvgDoc :=
  let doc1 := if doc.hasWrapper then doc
              else { doc with
                hasWrapper := true, baseViewbox := none,
                baseWidth := none, baseHeight := none,
                angleAttr := none, transform := none }
  if doc1.baseViewbox.isNone then
    { doc1 with
      baseViewbox := some vb, baseWidth := some doc1.width,
      baseHeight := some doc1.height, angleAttr := some 0 }
  else doc1

/-- `math.cos(math.radians a)` for an angle of `a` degrees, exact at the
right-angle multiples, which are the only angles the rotation route
admits (`routes/svg.py` 107-109 rejects every other input, and the
stored angle is always a previously written total).  The final catch-all
branch is never reached under those hypotheses. -/
def cosDeg (a : ℤ) : ℚ :=
  if a % 360 = 0 then 1
  else if a % 360 = 90 then 0
  else if a % 360 = 180 then -1
  else if a % 360 = 270 then 0
  else 0

/-- `math.sin(math.radians a)` at right-angle multiples (see `cosDeg`). -/
def sinDeg (a : ℤ) : ℚ :=
  if a % 360 = 0 then 0
  else if a % 360 = 90 then 1
  else if a % 360 = 180 then 0
  else if a % 360 = 270 then -1
  else 0

/-- The `%.6f` formatting used when the new viewBox is written back
(`rotation.py` 140): round to six decimal places. -/
def fmt6 (q : ℚ) : ℚ :=
  (round (q * 1000000) : ℤ) / 1000000

/-- The rotation computation and write-back (`rotation.py` 110-156),
run after the viewBox, wrapper and base metadata are ensured: rotate the
four corners of the *base* box about the base centre by the new total
angle, take the enclosing axis-aligned box, swap the width/height
strings when the total is an odd multiple of 90°, and set or clear the
wrapper transform. -/
def applyRotation (doc : SvgDoc) (vb : ℚ × ℚ × ℚ × ℚ) (normalized : ℤ) : SvgDoc :=
  let base := doc.baseViewbox.getD vb
  let bx := base.1
  let by2 := base.2.1
  let bw := base.2.2.1
  let bh := base.2.2.2
  let cx := bx + bw / 2
  let cy := by2 + bh / 2
  let current := (doc.angleAttr.getD 0) % 360
  let total := (current + normalized) % 360
  let c := cosDeg total
  let s := sinDeg total
  let rot : ℚ × ℚ → ℚ × ℚ := fun p =>
    (c * (p.1 - cx) - s * (p.2 - cy) + cx, s * (p.1 - cx) + c * (p.2 - cy) + cy)
  let p1 := rot (bx, by2)
  let p2 := rot (bx + bw, by2)
  let p3 := rot (bx, by2 + bh)
  let p4 := rot (bx + bw, by2 + bh)
  let nminx := min (min p1.1 p2.1) (min p3.1 p4.1)
  let nmaxx := max (max p1.1 p2.1) (max p3.1 p4.1)
  let nminy := min (min p1.2 p2.2) (min p3.2 p4.2)
  let nmaxy := max (max p1.2 p2.2) (max p3.2 p4.2)
  let newVB := (fmt6 nminx, fmt6 nminy, fmt6 (nmaxx - nminx), fmt6 (nmaxy - nminy))
  let swap := total % 180 = 90 ∨ total % 180 = 270
  let newW := if swap then doc.baseHeight.getD doc.height
              else doc.baseWidth.getD doc.width
  let newH := if swap then doc.baseWidth.getD newW
              else doc.baseHeight.getD doc.height
  { doc with
    viewBox := some newVB, width := newW, height := newH,
    transform := if total = 0 then none else some (total, cx, cy),
    angleAttr := some total }

/-- `rotate_svg_file` (`rotation.py` 85-157). -/
def rotate_svg_file (doc : SvgDoc) (angle : ℤ) : Except RotError SvgDoc :=
  let n0 := angle % 360
  let normalized := if n0 < 0 then n0 + 360 else n0
  if normalized = 0 then .ok doc
  else
    match ensureViewbox doc with
    | .error e => .error e
    | .ok (vb, doc1) => .ok (applyRotation (ensureMeta doc1 vb) vb normalized)

/-- `RotateRequest.normalized` (`core/schemas.py` 8-13). -/
def normalizedAngle (angle : ℤ) : ℤ :=
  let v := angle % 360
  if v < 0 then v + 360 else v

/-- The `rotate_file` route (`routes/svg.py` 100-115) on an existing
file: reject non-right-angle inputs with 400, answer `rotated := false`
without touching the file for a zero angle, otherwise rotate.  Returns
the updated document and the `rotated` flag of the response. -/
def rotate_file (doc : SvgDoc) (angle : ℤ) : Except RotError (SvgDoc × Bool) :=
  let normalized := normalizedAngle angle
  if normalized = 0 ∨ normalized = 90 ∨ normalized = 180 ∨ normalized = 270 then
    if normalized = 0 then .ok (doc, false)
    else
      match rotate_svg_file doc normalized with
      | .ok d => .ok (d, true)
      | .error e => .error e
  else .error .badAngle

/-- A sequence of rotate requests applied through the route. -/
def foldRotate (doc : SvgDoc) : List ℤ → Except RotError SvgDoc
  | [] => .ok doc
  | a :: rest =>
    match rotate_file doc a with
    | .ok dr => foldRotate dr.1 rest
    | .error e => .error e

/-! ## Helper lemmas -/

theorem pyMax_left_le (a b : ℚ) : a ≤ pyMax a b := by
  unfold pyMax
  split_ifs with h
  · exact le_refl a
  · linarith

theorem pyMax_le {a b c : ℚ} (h1 : a ≤ c) (h2 : b ≤ c) : pyMax a b ≤ c := by
  unfold pyMax
  split_ifs
  · exact h1
  · exact h2

theorem pyMin_le_right (a b : ℚ) : pyMin a b ≤ b := by
  unfold pyMin
  split_ifs with h
  · exact h
  · exact le_refl b

theorem timeStep_progress (st : JobState) (l : String) :
    (timeStep st l).progress = st.progress := by
  unfold timeStep
  cases timeSearch l with
  | none => rfl
  | some g => rfl

theorem distStep_progress (st : JobState) (l : String) :
    (distStep st l).progress = st.progress := by
  unfold distStep
  repeat first | rfl | simp only [] | split

/-- Every progress value the reader writes is of the clamped form. -/
theorem watchLine_progress_cases (st : JobState) (line : String) :
    (watchLine st line).progress = st.progress ∨
    ∃ v0, (watchLine st line).progress = some (pyMax 0 (pyMin v0 100)) := by
  by_cases he : pyStrip line = ""
  · left
    simp [watchLine, he]
  · cases hs : progressSearch (pyStrip line) with
    | none =>
      left
      simp [watchLine, progressStep, he, hs, distStep_progress, timeStep_progress]
    | some cap =>
      cases hv : pyFloatDigits? cap with
      | none =>
        left
        simp [watchLine, progressStep, he, hs, hv]
      | some v =>
        right
        exact ⟨v, by
          simp [watchLine, progressStep, he, hs, hv, distStep_progress,
            timeStep_progress]⟩

/-- A successful position match is the result of the leftmost search. -/
theorem firstSome_of_head {α : Type} {f : List Char → Option α} {l : List Char}
    {v : α} (h : f l = some v) : firstSome f l = some v := by
  cases l with
  | nil => simpa [firstSome] using h
  | cons c cs => simp [firstSome, h]

theorem takeWhile_append_all {p : Char → Bool} {d r : List Char}
    (hd : ∀ c ∈ d, p c = true) (hr : ∀ c, r.head? = some c → p c = false) :
    (d ++ r).takeWhile p = d ∧ (d ++ r).dropWhile p = r := by
  induction d with
  | nil =>
    cases r with
    | nil => exact ⟨rfl, rfl⟩
    | cons c cs =>
      have hc := hr c rfl
      simp [List.takeWhile_cons, List.dropWhile_cons, hc]
  | cons c cs ih =>
    have hc := hd c (by simp)
    have ih' := ih (fun x hx => hd x (by simp [hx]))
    simp [List.takeWhile_cons, List.dropWhile_cons, hc, ih'.1, ih'.2]

theorem isDigitC_not_ws {c : Char} (h : isDigitC c = true) : pyWs c = false := by
  simp only [isDigitC, Bool.and_eq_true, decide_eq_true_eq] at h
  simp only [pyWs, Bool.or_eq_false_iff, decide_eq_false_iff_not]
  omega

theorem takeWhile_all {p : Char → Bool} {d : List Char}
    (hd : ∀ c ∈ d, p c = true) : d.takeWhile p = d ∧ d.dropWhile p = [] := by
  have h := @takeWhile_append_all p d [] hd (by intro c hc; simp at hc)
  simpa using h

theorem span_digits_colon (d rest : List Char) (hd : ∀ c ∈ d, isDigitC c = true) :
    (d ++ ':' :: rest).takeWhile isDigitC = d ∧
    (d ++ ':' :: rest).dropWhile isDigitC = ':' :: rest :=
  takeWhile_append_all hd (by
    intro c hc
    simp only [List.head?_cons, Option.some.injEq] at hc
    subst hc
    decide)

theorem dropWhile_ws_digits (d rest : List Char) (h1 : d ≠ [])
    (hd : ∀ c ∈ d, isDigitC c = true) :
    (' ' :: (d ++ rest)).dropWhile pyWs = d ++ rest := by
  rw [List.dropWhile_cons]
  have hsp : pyWs ' ' = true := rfl
  rw [if_pos hsp]
  cases d with
  | nil => exact absurd rfl h1
  | cons c d' =>
    rw [List.cons_append, List.dropWhile_cons]
    have hc : pyWs c = false := isDigitC_not_ws (hd c (by simp))
    simp [hc]

/-! ## Claims C7, C4, C2, C8: the output-stream parser and the reader -/

/-- Claim C7 counterexample: the bare line `"-5%"` (and likewise
`"Progress: -5%"`) does not match `PROGRESS_RE` — the pattern requires a
`Progress:`/`Percent complete:` label and its `[0-9.]+` group cannot
match a minus sign — so progress is left untouched (here `none`), not
clamped to 0 as the claim states. -/
theorem c7_counterexample :
    (watchLine jobInit "-5%").progress = none ∧
    watchLine jobInit "-5%" = jobInit ∧
    watchLine jobInit "Progress: -5%" = jobInit := by
  refine ⟨by decide, by decide, by decide⟩

set_option maxHeartbeats 4000000 in
/-- Claim C7 (amended): given the line `"Progress: 37.5%"` the parsed
progress is exactly 37.5 and `"Progress: 150%"` clamps to 100; the line
`"-5%"` does not match the pattern at all and leaves progress unchanged
(the clamp to 0 is unobservable because the captured group only matches
unsigned numbers); every progress value the parser stores lies in
[0,100]. -/
theorem c7_progress_clamping :
    (watchLine jobInit "Progress: 37.5%").progress = some (75 / 2) ∧
    (watchLine jobInit "Progress: 150%").progress = some 100 ∧
    watchLine jobInit "-5%" = jobInit ∧
    ∀ st line v, (watchLine st line).progress = some v →
      (watchLine st line).progress = st.progress ∨ (0 ≤ v ∧ v ≤ 100) := by
  have h1 : (watchLine jobInit "Progress: 37.5%").progress = some (75 / 2) := by
    with_unfolding_all decide
  have h2 : (watchLine jobInit "Progress: 150%").progress = some 100 := by
    with_unfolding_all decide
  have h3 : watchLine jobInit "-5%" = jobInit := by decide
  refine ⟨h1, h2, h3, ?_⟩
  intro st line v h
  rcases watchLine_progress_cases st line with hc | ⟨v0, hc⟩
  · exact Or.inl hc
  · right
    rw [h] at hc
    obtain rfl : v = pyMax 0 (pyMin v0 100) := Option.some.inj hc
    exact ⟨pyMax_left_le 0 _, pyMax_le (by norm_num) (pyMin_le_right v0 100)⟩

set_option maxHeartbeats 4000000 in
/-- Witness for C7: the clamp bound instantiated on the line
`"Progress: 37.5%"`. -/
theorem c7_progress_clamping_witness :
    (watchLine jobInit "Progress: 37.5%").progress = jobInit.progress ∨
    (0 ≤ (75 / 2 : ℚ) ∧ (75 / 2 : ℚ) ≤ 100) :=
  c7_progress_clamping.2.2.2 jobInit "Progress: 37.5%" (75 / 2)
    (by with_unfolding_all decide)

set_option maxHeartbeats 4000000 in
/-- Claim C4 counterexample: with the job already cancelled
(`JOB["proc"]` is `None`, so the current handle is not this reader's
process), the background reader still writes a parsed progress value —
its per-line Job State mutations are not preceded by the handle-identity
check; only the end-of-stream block is guarded. -/
theorem c4_counterexample :
    jobInit.proc ≠ some ⟨7, true, 0⟩ ∧
    (watchPlotProgress ⟨7, true, 0⟩ ["Progress: 50%"] 0 7 jobInit).progress = some 50 ∧
    watchPlotProgress ⟨7, true, 0⟩ ["Progress: 50%"] 0 7 jobInit ≠ jobInit := by
  have h1 : jobInit.proc ≠ some ⟨7, true, 0⟩ := by decide
  have h2 : (watchPlotProgress ⟨7, true, 0⟩ ["Progress: 50%"] 0 7
      jobInit).progress = some 50 := by
    with_unfolding_all decide
  refine ⟨h1, h2, fun he => ?_⟩
  rw [he] at h2
  exact absurd h2 (by decide)

/-- Claim C4 (amended): the end-of-stream (`finally`) mutations of the
background reader are guarded by the handle-identity comparison
`JOB.get("proc") is proc`: when the job's current handle is no longer
this reader's process they are discarded as a no-op, so cancellation
wins for those writes (the per-line parser writes are not so guarded). -/
theorem c4_final_block_guarded (proc : ProcHandle) (rc : ℤ) (now : ℚ)
    (logLines : List String) (st : JobState) (h : st.proc ≠ some proc) :
    watchFinal proc rc now logLines st = st := by
  unfold watchFinal
  rw [if_neg h]

/-- Witness for C4: the guarded final block is a no-op on a cancelled
job. -/
theorem c4_final_block_guarded_witness :
    watchFinal ⟨3, true, 1⟩ 0 5 [] jobInit = jobInit :=
  c4_final_block_guarded ⟨3, true, 1⟩ 0 5 [] jobInit (by decide)

/-- Claim C2 counterexample: when the process outlives the 200 ms poll
and ends through the background watcher, exit code 0 with captured
output `"No NextDraw found"` is classified as success — progress forced
to 100 and the error cleared — because the marker heuristic exists only
in the immediate-exit path of `_start_plot_from_path`. -/
theorem c2_counterexample :
    suspiciousOutput "No NextDraw found" = true ∧
    (watchPlotProgress ⟨7, true, 0⟩ ["No NextDraw found"] 0 9
        { jobInit with proc := some ⟨7, true, 0⟩ }).error = none ∧
    (watchPlotProgress ⟨7, true, 0⟩ ["No NextDraw found"] 0 9
        { jobInit with proc := some ⟨7, true, 0⟩ }).progress = some 100 := by
  refine ⟨by decide, by decide, by decide⟩

/-- Claim C2 (amended): in the immediate-exit path, exit code 0 whose
captured output contains (case-insensitively) `"error"`,
`"no nextdraw"` or `"no devices"` is classified as failed: progress is
cleared to unknown, the error field is set to the captured output text,
and HTTP 500 is raised with that text — despite the zero exit code.
The background-watcher path applies no such heuristic (see the
counterexample). -/
theorem c2_zero_exit_failure_heuristic (st : JobState) (stdoutData : String)
    (now : ℚ) (pid : ℤ) (cmdStr pageFlag : String)
    (hne : pyStrip stdoutData ≠ "")
    (hsus : suspiciousOutput (pyStrip stdoutData) = true) :
    (classifyImmediateExit 0 stdoutData now pid cmdStr pageFlag st).1.progress = none ∧
    (classifyImmediateExit 0 stdoutData now pid cmdStr pageFlag st).1.error
      = some (pyStrip stdoutData) ∧
    (classifyImmediateExit 0 stdoutData now pid cmdStr pageFlag st).2
      = .error (500, pyStrip stdoutData) := by
  simp [classifyImmediateExit, hne, hsus]

/-- Witness for C2: the heuristic fires on `"No NextDraw found"`. -/
theorem c2_zero_exit_failure_heuristic_witness :
    (classifyImmediateExit 0 "No NextDraw found" 9 42 "cmd" "a5" jobInit).1.progress = none ∧
    (classifyImmediateExit 0 "No NextDraw found" 9 42 "cmd" "a5" jobInit).1.error
      = some (pyStrip "No NextDraw found") ∧
    (classifyImmediateExit 0 "No NextDraw found" 9 42 "cmd" "a5" jobInit).2
      = .error (500, pyStrip "No NextDraw found") :=
  c2_zero_exit_failure_heuristic jobInit "No NextDraw found" 9 42 "cmd" "a5"
    (by decide) (by decide)

/-- Claim C8 counterexample: a bare-seconds duration (`"Elapsed: 45"`)
does not match `TIME_RE` — the pattern demands at least
`(\d+):(\d+)` — so no elapsed override is stored, contrary to the
claim's `SS` form. -/
theorem c8_counterexample :
    timeSearch "Elapsed: 45" = none ∧
    watchLine jobInit "Elapsed: 45" = jobInit ∧
    (watchLine jobInit "Elapsed: 45").elapsed_override = none := by
  refine ⟨by decide, by decide, by decide⟩

theorem matchPrefixCI_elapsed (r : List Char) :
    matchPrefixCI "elapsed:".toList ("Elapsed: ".toList ++ r) = some (' ' :: r) := rfl

theorem matchPrefixCI_elapsed_on_time (r : List Char) :
    matchPrefixCI "elapsed:".toList ("Time: ".toList ++ r) = none := rfl

theorem matchPrefixCI_time (r : List Char) :
    matchPrefixCI "time:".toList ("Time: ".toList ++ r) = some (' ' :: r) := rfl

/-- `TIME_RE` matches at the head of `Elapsed: H:MM:SS` for arbitrary
digit runs. -/
theorem timeMatchAt_elapsed_hms (d1 d2 d3 : List Char)
    (h1 : d1 ≠ []) (h2 : d2 ≠ []) (h3 : d3 ≠ [])
    (a1 : ∀ c ∈ d1, isDigitC c = true) (a2 : ∀ c ∈ d2, isDigitC c = true)
    (a3 : ∀ c ∈ d3, isDigitC c = true) :
    timeMatchAt ("Elapsed: ".toList ++ (d1 ++ ':' :: (d2 ++ ':' :: d3)))
      = some (digitsToNat d1, digitsToNat d2, some (digitsToNat d3)) := by
  simp only [timeMatchAt, matchPrefixCI_elapsed,
    dropWhile_ws_digits d1 _ h1 a1,
    (span_digits_colon d1 _ a1).1, (span_digits_colon d1 _ a1).2, if_neg h1,
    (span_digits_colon d2 _ a2).1, (span_digits_colon d2 _ a2).2, if_neg h2,
    (takeWhile_all a3).1, if_neg h3]

/-- `TIME_RE` matches at the head of `Time: M:SS` for arbitrary digit
runs; the optional third group is absent. -/
theorem timeMatchAt_time_ms (d1 d2 : List Char)
    (h1 : d1 ≠ []) (h2 : d2 ≠ [])
    (a1 : ∀ c ∈ d1, isDigitC c = true) (a2 : ∀ c ∈ d2, isDigitC c = true) :
    timeMatchAt ("Time: ".toList ++ (d1 ++ ':' :: d2))
      = some (digitsToNat d1, digitsToNat d2, none) := by
  simp only [timeMatchAt, matchPrefixCI_elapsed_on_time, matchPrefixCI_time,
    dropWhile_ws_digits d1 _ h1 a1,
    (span_digits_colon d1 _ a1).1, (span_digits_colon d1 _ a1).2, if_neg h1,
    (takeWhile_all a2).1, (takeWhile_all a2).2, if_neg h2]

/-- Claim C8 (amended): for every output line of the form
`Elapsed: H:MM:SS` or `Time: M:SS` (any digit runs), the parser extracts
the duration and stores the equivalent total number of seconds as the
job's elapsed override; a bare `SS` duration (`"Elapsed: 45"`) does not
match `TIME_RE` and nothing is stored. -/
theorem c8_time_parsing :
    (∀ (st : JobState) (d1 d2 d3 : List Char), d1 ≠ [] → d2 ≠ [] → d3 ≠ [] →
      (∀ c ∈ d1, isDigitC c = true) → (∀ c ∈ d2, isDigitC c = true) →
      (∀ c ∈ d3, isDigitC c = true) →
      (timeStep st (String.mk
          ("Elapsed: ".toList ++ (d1 ++ ':' :: (d2 ++ ':' :: d3))))).elapsed_override
        = some ((digitsToNat d1 * 3600 + digitsToNat d2 * 60 + digitsToNat d3 : ℕ) : ℚ)) ∧
    (∀ (st : JobState) (d1 d2 : List Char), d1 ≠ [] → d2 ≠ [] →
      (∀ c ∈ d1, isDigitC c = true) → (∀ c ∈ d2, isDigitC c = true) →
      (timeStep st (String.mk ("Time: ".toList ++ (d1 ++ ':' :: d2)))).elapsed_override
        = some ((digitsToNat d1 * 60 + digitsToNat d2 : ℕ) : ℚ)) ∧
    (∀ st : JobState, timeStep st "Elapsed: 45" = st) := by
  refine ⟨?_, ?_, ?_⟩
  · intro st d1 d2 d3 h1 h2 h3 a1 a2 a3
    have hs : timeSearch (String.mk
        ("Elapsed: ".toList ++ (d1 ++ ':' :: (d2 ++ ':' :: d3))))
        = some (digitsToNat d1, digitsToNat d2, some (digitsToNat d3)) :=
      firstSome_of_head (timeMatchAt_elapsed_hms d1 d2 d3 h1 h2 h3 a1 a2 a3)
    simp only [timeStep, hs]
  · intro st d1 d2 h1 h2 a1 a2
    have hs : timeSearch (String.mk ("Time: ".toList ++ (d1 ++ ':' :: d2)))
        = some (digitsToNat d1, digitsToNat d2, none) :=
      firstSome_of_head (timeMatchAt_time_ms d1 d2 h1 h2 a1 a2)
    simp only [timeStep, hs]
    norm_num
  · intro st
    unfold timeStep
    rw [show timeSearch "Elapsed: 45" = none from by decide]

/-- Witness for C8: `Elapsed: 1:02:03` is stored as 3723 seconds. -/
theorem c8_time_parsing_witness :
    (timeStep jobInit (String.mk
        ("Elapsed: ".toList ++ (['1'] ++ ':' :: (['0', '2'] ++ ':' :: ['0', '3']))))).elapsed_override
      = some ((digitsToNat ['1'] * 3600 + digitsToNat ['0', '2'] * 60 +
          digitsToNat ['0', '3'] : ℕ) : ℚ) :=
  c8_time_parsing.1 jobInit ['1'] ['0', '2'] ['0', '3'] (by decide) (by decide)
    (by decide) (by decide) (by decide) (by decide)

/-! ## Claims C3, C9, C10: the process supervisor -/

/-- A concrete start environment for the witnesses: file present, online,
`vpype` centering succeeds, process still running at the 200 ms poll. -/
def sampleEnv : StartEnv :=
  { base := ["nextdraw"], tempDir := "/tmp/plot", fileExists := true,
    offline := false, vpypeFound := true, vpypeReturncode := 0,
    newProc := ⟨42, true, 2⟩, pollResult := none, immediateOutput := "",
    estimate := some 5, now := 1000, endNow := 1001 }

/-- Concrete start parameters for the witnesses. -/
def sampleParams : StartParams :=
  { svgName := "a.svg", originalName := none, page := "a4", sDown := 30,
    sUp := 70, pDown := 40, pUp := 70, handling := 1, speed := 70,
    penlift := none, noHoming := false, model := some "7", layer := none }

/-- Claim C3: a start request while the current job's process handle is
live and still running is rejected with HTTP 409 ("A job is already
running") before any staging, and no field of the Job State record is
modified by the rejected attempt. -/
theorem c3_conflict_rejected (env : StartEnv) (p : StartParams)
    (st : JobState) (ph : ProcHandle)
    (hp : st.proc = some ph) (halive : ph.alive = true) :
    startPlotFromPath env p st = (st, .error (409, "A job is already running")) := by
  unfold startPlotFromPath
  rw [hp]
  simp [halive]

/-- Witness for C3: a live handle makes the start call a rejected
no-op. -/
theorem c3_conflict_rejected_witness :
    startPlotFromPath sampleEnv sampleParams
        { jobInit with proc := some ⟨9, true, 1⟩ }
      = ({ jobInit with proc := some ⟨9, true, 1⟩ },
         .error (409, "A job is already running")) :=
  c3_conflict_rejected sampleEnv sampleParams _ ⟨9, true, 1⟩ rfl rfl

theorem lookup_mem_keys {s : String} {v : ℤ} :
    ∀ {l : List (String × ℤ)}, l.lookup s = some v → (s, v) ∈ l := by
  intro l
  induction l with
  | nil => intro h; exact absurd h (by simp [List.lookup])
  | cons kv rest ih =>
    obtain ⟨k, b⟩ := kv
    intro h
    simp only [List.lookup] at h
    split at h
    · rename_i hbe
      obtain rfl : s = k := by simpa using hbe
      obtain rfl : b = v := Option.some.inj h
      exact List.mem_cons_self _ _
    · exact List.mem_cons_of_mem _ (ih h)

/-- No key of `NEXTDRAW_MODEL_MAP` parses as a Python `int`. -/
theorem model_map_keys_not_int :
    ∀ kv ∈ NEXTDRAW_MODEL_MAP, pyIntStr? kv.1 = none := by decide

/-- A decimal model name always misses the exact-match lookup. -/
theorem model_map_lookup_of_int {s : String} {n : ℤ}
    (h : pyIntStr? s = some n) : NEXTDRAW_MODEL_MAP.lookup s = none := by
  cases hl : NEXTDRAW_MODEL_MAP.lookup s with
  | none => rfl
  | some v =>
    have hm := lookup_mem_keys hl
    have h2 : pyIntStr? s = none := model_map_keys_not_int (s, v) hm
    rw [h2] at h
    exact Option.noConfusion h

/-- Claim C10: model resolution at the command-building interface is
total and three-way: an absent model name (`None` or empty) resolves to
no model number and no `-L` flag enters the argument vector; a decimal
string whose value is between 1 and 10 is used directly as the model
number; any other unrecognized non-empty name (not an exact map name,
not a decimal in range) resolves to the default model number 8. -/
theorem c10_model_resolution :
    getModelNumber none = none ∧
    getModelNumber (some "") = none ∧
    (∀ (base : List String) (usePath : String) (sDown sUp pDown pUp handling speed : ℤ)
        (penlift : Option ℤ) (noHoming : Bool) (layer : Option String),
      buildPlotCmd base (getModelNumber none) usePath sDown sUp pDown pUp
          handling speed penlift noHoming layer
        = base ++ plotRestArgs usePath sDown sUp pDown pUp handling speed
            penlift noHoming layer) ∧
    (∀ (s : String) (n : ℤ), pyIntStr? s = some n → 1 ≤ n → n ≤ 10 →
      getModelNumber (some s) = some n) ∧
    (∀ s : String, s ≠ "" → NEXTDRAW_MODEL_MAP.lookup s = none →
      (∀ n, pyIntStr? s = some n → ¬(1 ≤ n ∧ n ≤ 10)) →
      getModelNumber (some s) = some 8) := by
  refine ⟨rfl, by decide, ?_, ?_, ?_⟩
  · intro base usePath sDown sUp pDown pUp handling speed penlift noHoming layer
    simp [buildPlotCmd, getModelNumber, modelArgs]
  · intro s n h h1 h10
    have hne : s ≠ "" := by
      intro he
      subst he
      rw [show pyIntStr? "" = none from by decide] at h
      exact Option.noConfusion h
    simp only [getModelNumber, if_neg hne, model_map_lookup_of_int h, h,
      if_pos (And.intro h1 h10)]
  · intro s hne hlk hout
    simp only [getModelNumber, if_neg hne, hlk]
    cases hp : pyIntStr? s with
    | none => rfl
    | some n => simp [hout n hp]

/-- Witness for C10: the decimal name `"7"` resolves to model 7. -/
theorem c10_model_resolution_witness :
    getModelNumber (some "7") = some 7 :=
  c10_model_resolution.2.2.2.1 "7" 7 (by decide) (by decide) (by decide)

/-- The Job State left behind by a previous plot of the same file, whose
watcher recorded a drawn distance of 123 mm. -/
def samplePrevJob : JobState :=
  { jobInit with
    file := some "a-fixed.svg", progress := some 100,
    start_time := some 10, end_time := some 50, distance_mm := some 123 }

/-- Claim C9 counterexample: starting a new plot of the same file
succeeds but keeps the previous job's cumulative distance (123 mm)
instead of reinitializing it — the reset happens only when the
working-copy filename differs — so a value observed for the new job
(`distance_mm`) originates from the previous job; the fresh estimate
would have been 5 mm. -/
theorem c9_counterexample :
    (startPlotFromPath sampleEnv sampleParams samplePrevJob).2.isOk = true ∧
    (startPlotFromPath sampleEnv sampleParams samplePrevJob).1.distance_mm = some 123 ∧
    samplePrevJob.distance_mm = some 123 ∧
    sampleEnv.estimate = some 5 := by
  refine ⟨by with_unfolding_all decide, by with_unfolding_all decide,
    by with_unfolding_all decide, by with_unfolding_all decide⟩

/-- Claim C9 (amended): every successful online start (process still
running at the 200 ms poll) reinitializes the per-job fields — the
handle, progress 0, fresh start time, cleared end time, cleared elapsed
override, cleared error, the new model — but the cumulative distance is
reset only when the working-copy filename differs from the previous
job's file; re-plotting the same file retains the previous distance,
re-estimating only when it was absent. -/
theorem c9_start_reinitializes (env : StartEnv) (p : StartParams)
    (st st' : JobState) (r : PlotResponse)
    (hoff : env.offline = false) (hpoll : env.pollResult = none)
    (hrun : startPlotFromPath env p st = (st', .ok r)) :
    st'.proc = some env.newProc ∧
    st'.progress = some 0 ∧
    st'.start_time = some env.now ∧
    st'.end_time = none ∧
    st'.elapsed_override = none ∧
    st'.error = none ∧
    st'.model = p.model ∧
    st'.distance_mm = (if st.file = st'.file ∧ st.distance_mm ≠ none
                       then st.distance_mm else env.estimate) := by
  unfold startPlotFromPath at hrun
  split at hrun
  · rw [Prod.mk.injEq] at hrun
    exact absurd hrun.2 (by simp)
  · split at hrun
    · rw [Prod.mk.injEq] at hrun
      exact absurd hrun.2 (by simp)
    · unfold startPlotGo at hrun
      split at hrun
      · rw [Prod.mk.injEq] at hrun
        exact absurd hrun.2 (by simp)
      · rename_i x tn htn
        rw [hoff, hpoll] at hrun
        simp only [Bool.false_eq_true, if_false] at hrun
        rw [Prod.mk.injEq] at hrun
        obtain ⟨hst, -⟩ := hrun
        subst hst
        by_cases hf : st.file = some (useNameOf env tn)
        · by_cases hd : st.distance_mm = none
          · simp [hf, hd]
          · simp [hf, hd]
        · simp [hf]

/-- The response of a fresh-state start with the sample environment. -/
def sampleResp : PlotResponse :=
  { ok := true, pid := 42, file := some "a-fixed.svg",
    cmd := "nextdraw -L7 /tmp/plot/a-fixed.svg --speed_pendown 30 --speed_penup 70 --pen_pos_down 40 --pen_pos_up 70 --progress --handling 1",
    page := "a4", completed := false, offline := false, output := none }

set_option maxRecDepth 4000 in
set_option maxHeartbeats 2000000 in
/-- Witness for C9: the reinitialization facts instantiated on a
fresh-state start. -/
theorem c9_start_reinitializes_witness :
    (startPlotFromPath sampleEnv sampleParams jobInit).1.proc = some sampleEnv.newProc ∧
    (startPlotFromPath sampleEnv sampleParams jobInit).1.progress = some 0 ∧
    (startPlotFromPath sampleEnv sampleParams jobInit).1.start_time = some sampleEnv.now ∧
    (startPlotFromPath sampleEnv sampleParams jobInit).1.end_time = none ∧
    (startPlotFromPath sampleEnv sampleParams jobInit).1.elapsed_override = none ∧
    (startPlotFromPath sampleEnv sampleParams jobInit).1.error = none ∧
    (startPlotFromPath sampleEnv sampleParams jobInit).1.model = sampleParams.model ∧
    (startPlotFromPath sampleEnv sampleParams jobInit).1.distance_mm =
      (if jobInit.file = (startPlotFromPath sampleEnv sampleParams jobInit).1.file ∧
          jobInit.distance_mm ≠ none
       then jobInit.distance_mm else sampleEnv.estimate) :=
  c9_start_reinitializes sampleEnv sampleParams jobInit
    (startPlotFromPath sampleEnv sampleParams jobInit).1 sampleResp rfl rfl
    (by with_unfolding_all decide)

/-! ## Claims C5, C6, C1: the rotation engine -/

theorem normalizedAngle_eq (a : ℤ) : normalizedAngle a = a % 360 := by
  show (if a % 360 < 0 then a % 360 + 360 else a % 360) = a % 360
  split <;> omega

theorem ensureViewbox_fields {doc d1 : SvgDoc} {vb : ℚ × ℚ × ℚ × ℚ}
    (h : ensureViewbox doc = .ok (vb, d1)) :
    d1.width = doc.width ∧ d1.height = doc.height ∧
    d1.hasWrapper = doc.hasWrapper ∧ d1.baseViewbox = doc.baseViewbox ∧
    d1.baseWidth = doc.baseWidth ∧ d1.baseHeight = doc.baseHeight ∧
    d1.angleAttr = doc.angleAttr ∧ d1.viewBox = some vb ∧
    (doc.viewBox = none ∨ doc.viewBox = some vb) := by
  unfold ensureViewbox at h
  split at h
  · rename_i vb0 hvb
    obtain ⟨rfl, rfl⟩ : vb0 = vb ∧ doc = d1 := by
      have := Except.ok.inj h
      exact ⟨congrArg Prod.fst this, congrArg Prod.snd this⟩
    exact ⟨rfl, rfl, rfl, rfl, rfl, rfl, rfl, hvb, Or.inr hvb⟩
  · rename_i hnone
    split at h
    · rename_i w hgt hw hh
      have hp := Except.ok.inj h
      obtain rfl : (0, 0, w, hgt) = vb := congrArg Prod.fst hp
      obtain rfl : { doc with viewBox := some (0, 0, w, hgt) } = d1 :=
        congrArg Prod.snd hp
      exact ⟨rfl, rfl, rfl, rfl, rfl, rfl, rfl, rfl, Or.inl hnone⟩
    · exact absurd h (by simp)

theorem ensureMeta_of_present {doc : SvgDoc} (vb : ℚ × ℚ × ℚ × ℚ)
    (hw : doc.hasWrapper = true) (hb : doc.baseViewbox.isSome = true) :
    ensureMeta doc vb = doc := by
  unfold ensureMeta
  rw [if_pos hw]
  cases hbv : doc.baseViewbox with
  | none => rw [hbv] at hb; exact absurd hb (by simp)
  | some q => simp [hbv]

theorem ensureMeta_of_absent {doc : SvgDoc} (vb : ℚ × ℚ × ℚ × ℚ)
    (hb : doc.baseViewbox = none) :
    (ensureMeta doc vb).baseViewbox = some vb ∧
    (ensureMeta doc vb).baseWidth = some doc.width ∧
    (ensureMeta doc vb).baseHeight = some doc.height ∧
    (ensureMeta doc vb).angleAttr = some 0 ∧
    (ensureMeta doc vb).width = doc.width ∧
    (ensureMeta doc vb).height = doc.height ∧
    (ensureMeta doc vb).viewBox = doc.viewBox ∧
    (ensureMeta doc vb).hasWrapper = true := by
  unfold ensureMeta
  by_cases hw : doc.hasWrapper
  · simp [hw, hb, Option.isNone]
  · simp [hw]

theorem ensureMeta_angleAttr (doc : SvgDoc) (vb : ℚ × ℚ × ℚ × ℚ) :
    (ensureMeta doc vb).angleAttr = doc.angleAttr ∨
    (ensureMeta doc vb).angleAttr = some 0 := by
  unfold ensureMeta
  by_cases hw : doc.hasWrapper
  · rw [if_pos hw]
    by_cases hb : doc.baseViewbox.isNone = true
    · rw [if_pos hb]; right; rfl
    · rw [if_neg hb]; left; rfl
  · rw [if_neg hw]
    right
    simp

theorem applyRotation_meta (doc : SvgDoc) (vb : ℚ × ℚ × ℚ × ℚ) (n : ℤ) :
    (applyRotation doc vb n).baseViewbox = doc.baseViewbox ∧
    (applyRotation doc vb n).baseWidth = doc.baseWidth ∧
    (applyRotation doc vb n).baseHeight = doc.baseHeight ∧
    (applyRotation doc vb n).hasWrapper = doc.hasWrapper ∧
    (applyRotation doc vb n).angleAttr
      = some (((doc.angleAttr.getD 0) % 360 + n) % 360) ∧
    (applyRotation doc vb n).viewBox.isSome = true :=
  ⟨rfl, rfl, rfl, rfl, rfl, rfl⟩

/-- `rotate_svg_file` on a non-trivial angle decomposes into ensure
steps followed by the rotation computation. -/
theorem rotate_svg_file_spec {d d' : SvgDoc} {a : ℤ} (ha0 : ¬ a % 360 = 0)
    (hok : rotate_svg_file d a = .ok d') :
    ∃ vb d1, ensureViewbox d = .ok (vb, d1) ∧
      d' = applyRotation (ensureMeta d1 vb) vb (a % 360) := by
  have hnn : ¬ a % 360 < 0 := by
    have := Int.emod_nonneg a (by norm_num : (360 : ℤ) ≠ 0)
    omega
  simp only [rotate_svg_file, if_neg hnn, if_neg ha0] at hok
  cases hv : ensureViewbox d with
  | error e => rw [hv] at hok; exact absurd hok (by simp)
  | ok p =>
    obtain ⟨vb, d1⟩ := p
    rw [hv] at hok
    simp only [] at hok
    exact ⟨vb, d1, rfl, (Except.ok.inj hok).symm⟩

/-- The route-level rotation either refuses, no-ops on 0, or rotates by
the normalized right angle. -/
theorem rotate_file_spec {d d' : SvgDoc} {a : ℤ} {flag : Bool}
    (hok : rotate_file d a = .ok (d', flag)) :
    (a % 360 = 0 ∧ d' = d ∧ flag = false) ∨
    ((a % 360 = 90 ∨ a % 360 = 180 ∨ a % 360 = 270) ∧ flag = true ∧
      ∃ vb d1, ensureViewbox d = .ok (vb, d1) ∧
        d' = applyRotation (ensureMeta d1 vb) vb (a % 360)) := by
  simp only [rotate_file, normalizedAngle_eq] at hok
  split at hok
  · rename_i hmem
    split at hok
    · rename_i h0
      have hp := Except.ok.inj hok
      exact Or.inl ⟨h0, (congrArg Prod.fst hp).symm, (congrArg Prod.snd hp).symm⟩
    · rename_i h0
      cases hrs : rotate_svg_file d (a % 360) with
      | error e => rw [hrs] at hok; exact absurd hok (by simp)
      | ok dd =>
        rw [hrs] at hok
        simp only [] at hok
        have hp := Except.ok.inj hok
        obtain rfl : dd = d' := congrArg Prod.fst hp
        obtain rfl : true = flag := congrArg Prod.snd hp
        have hdec := rotate_svg_file_spec
          (show ¬ (a % 360) % 360 = 0 by omega) hrs
        rw [Int.emod_emod_of_dvd a dvd_rfl] at hdec
        refine Or.inr ⟨?_, rfl, hdec⟩
        rcases hmem with h | h | h | h
        · exact absurd h h0
        · exact Or.inl h
        · exact Or.inr (Or.inl h)
        · exact Or.inr (Or.inr h)
  · exact absurd hok (by simp)

/-- Claim C5: for every input angle accepted by the rotation route, the
stored cumulative angle after the operation is a member of
{0, 90, 180, 270} (given it was before, which holds for every document
the engine itself has written); the normalization maps an input of 450°
to a 90° rotation and −90° to a 270° rotation. -/
theorem c5_cumulative_angle (d : SvgDoc) (a : ℤ) (d' : SvgDoc) (flag : Bool)
    (hinv : d.angleAttr.getD 0 = 0 ∨ d.angleAttr.getD 0 = 90 ∨
            d.angleAttr.getD 0 = 180 ∨ d.angleAttr.getD 0 = 270)
    (hok : rotate_file d a = .ok (d', flag)) :
    (d'.angleAttr.getD 0 = 0 ∨ d'.angleAttr.getD 0 = 90 ∨
     d'.angleAttr.getD 0 = 180 ∨ d'.angleAttr.getD 0 = 270) ∧
    normalizedAngle 450 = 90 ∧ normalizedAngle (-90) = 270 := by
  refine ⟨?_, by decide, by decide⟩
  rcases rotate_file_spec hok with ⟨-, rfl, -⟩ | ⟨hmem, -, vb, d1, hv, rfl⟩
  · exact hinv
  · have hfields := ensureViewbox_fields hv
    have hangle := (applyRotation_meta (ensureMeta d1 vb) vb (a % 360)).2.2.2.2.1
    rw [hangle]
    rcases ensureMeta_angleAttr d1 vb with hm | hm <;> rw [hm]
    · rw [hfields.2.2.2.2.2.2.1]
      simp only [Option.getD_some]
      rcases hinv with h | h | h | h <;> rw [h] <;> omega
    · simp only [Option.getD_some]
      omega

/-- A concrete fresh SVG document used by the rotation witnesses. -/
def sampleDoc : SvgDoc :=
  { viewBox := some (0, 0, 100, 50), width := "100mm", height := "50mm",
    hasWrapper := false, baseViewbox := none, baseWidth := none,
    baseHeight := none, angleAttr := none, transform := none }

/-- `sampleDoc` after one 90° rotation through the route. -/
def sampleDoc90 : SvgDoc :=
  { viewBox := some (25, -25, 50, 100), width := "50mm", height := "100mm",
    hasWrapper := true, baseViewbox := some (0, 0, 100, 50),
    baseWidth := some "100mm", baseHeight := some "50mm",
    angleAttr := some 90, transform := some (90, 50, 25) }

set_option maxHeartbeats 2000000 in
/-- Witness for C5: rotating a fresh document by 90° through the route
stores angle 90. -/
theorem c5_cumulative_angle_witness :
    (sampleDoc90.angleAttr.getD 0 = 0 ∨ sampleDoc90.angleAttr.getD 0 = 90 ∨
     sampleDoc90.angleAttr.getD 0 = 180 ∨ sampleDoc90.angleAttr.getD 0 = 270) ∧
    normalizedAngle 450 = 90 ∧ normalizedAngle (-90) = 270 :=
  c5_cumulative_angle sampleDoc 90 sampleDoc90 true (by decide)
    (by with_unfolding_all decide)

/-- Claim C6: the base-viewbox, base-width and base-height metadata
attributes are write-once.  They are created together the first time
rotation metadata is written for a document; every subsequent rotation
through the route reads but never overwrites them, the rotation-angle
attribute being the only metadata field updated per rotation. -/
theorem c6_base_metadata_write_once :
    (∀ (d : SvgDoc) (a : ℤ) (d' : SvgDoc) (flag : Bool) (vb0 : ℚ × ℚ × ℚ × ℚ),
      d.hasWrapper = true → d.baseViewbox = some vb0 →
      rotate_file d a = .ok (d', flag) →
      d'.baseViewbox = some vb0 ∧ d'.baseWidth = d.baseWidth ∧
        d'.baseHeight = d.baseHeight) ∧
    (∀ (d : SvgDoc) (a : ℤ) (d' : SvgDoc),
      d.baseViewbox = none → rotate_file d a = .ok (d', true) →
      ∃ q, d'.baseViewbox = some q ∧ d'.baseWidth = some d.width ∧
        d'.baseHeight = some d.height ∧ d'.angleAttr = some (a % 360)) := by
  constructor
  · intro d a d' flag vb0 hw hb hok
    rcases rotate_file_spec hok with ⟨-, rfl, -⟩ | ⟨hmem, -, vb, d1, hv, rfl⟩
    · exact ⟨hb, rfl, rfl⟩
    · have hf := ensureViewbox_fields hv
      have hmeta : ensureMeta d1 vb = d1 :=
        ensureMeta_of_present vb (hf.2.2.1.trans hw)
          (by rw [hf.2.2.2.1, hb]; rfl)
      have happ := applyRotation_meta (ensureMeta d1 vb) vb (a % 360)
      refine ⟨?_, ?_, ?_⟩
      · rw [happ.1, hmeta, hf.2.2.2.1, hb]
      · rw [happ.2.1, hmeta, hf.2.2.2.2.1]
      · rw [happ.2.2.1, hmeta, hf.2.2.2.2.2.1]
  · intro d a d' hb hok
    rcases rotate_file_spec hok with ⟨-, -, hfl⟩ | ⟨hmem, -, vb, d1, hv, rfl⟩
    · exact absurd hfl (by simp)
    · have hf := ensureViewbox_fields hv
      have hmeta := @ensureMeta_of_absent d1 vb (by rw [hf.2.2.2.1, hb])
      have happ := applyRotation_meta (ensureMeta d1 vb) vb (a % 360)
      refine ⟨vb, ?_, ?_, ?_, ?_⟩
      · rw [happ.1, hmeta.1]
      · rw [happ.2.1, hmeta.2.1, hf.1]
      · rw [happ.2.2.1, hmeta.2.2.1, hf.2.1]
      · rw [happ.2.2.2.2.1, hmeta.2.2.2.1]
        simp only [Option.getD_some]
        congr 1
        omega

/-- `sampleDoc90` after a further 180° rotation through the route. -/
def sampleDoc270 : SvgDoc :=
  { viewBox := some (25, -25, 50, 100), width := "50mm", height := "100mm",
    hasWrapper := true, baseViewbox := some (0, 0, 100, 50),
    baseWidth := some "100mm", baseHeight := some "50mm",
    angleAttr := some 270, transform := some (270, 50, 25) }

set_option maxHeartbeats 2000000 in
/-- Witness for C6: the base metadata created by the first rotation of
the sample document survives a second rotation unchanged. -/
theorem c6_base_metadata_write_once_witness :
    sampleDoc270.baseViewbox = some (0, 0, 100, 50) ∧
    sampleDoc270.baseWidth = sampleDoc90.baseWidth ∧
    sampleDoc270.baseHeight = sampleDoc90.baseHeight :=
  c6_base_metadata_write_once.1 sampleDoc90 180 sampleDoc270 true
    (0, 0, 100, 50) rfl rfl (by with_unfolding_all decide)

theorem fmt6_close (q : ℚ) : |fmt6 q - q| ≤ 1 / 1000000 := by
  have h2 : |(round (q * 1000000) : ℚ) - q * 1000000| ≤ 1 / 2 := by
    rw [abs_sub_comm]
    exact abs_sub_round _
  have h1 : fmt6 q - q = ((round (q * 1000000) : ℚ) - q * 1000000) / 1000000 := by
    unfold fmt6
    ring
  calc |fmt6 q - q|
      = |(round (q * 1000000) : ℚ) - q * 1000000| / 1000000 := by
        rw [h1, abs_div]
        norm_num
    _ ≤ (1 / 2) / 1000000 := by linarith
    _ ≤ 1 / 1000000 := by norm_num

/-- When the new total angle is a full turn, the written viewBox is the
base box (up to the `%.6f` formatting) and the original width/height
strings are restored. -/
theorem applyRotation_total_zero (doc : SvgDoc) (vb : ℚ × ℚ × ℚ × ℚ)
    (x y w h : ℚ) (n : ℤ)
    (hw : 0 ≤ w) (hh : 0 ≤ h)
    (hb : doc.baseViewbox = some (x, y, w, h))
    (htot : ((doc.angleAttr.getD 0) % 360 + n) % 360 = 0) :
    (applyRotation doc vb n).viewBox = some (fmt6 x, fmt6 y, fmt6 w, fmt6 h) ∧
    (applyRotation doc vb n).width = doc.baseWidth.getD doc.width ∧
    (applyRotation doc vb n).height = doc.baseHeight.getD doc.height := by
  have hxmin : x ⊓ (w + x) = x := min_eq_left (by linarith)
  have hymin : y ⊓ (h + y) = y := min_eq_left (by linarith)
  have hxmax : x ⊔ (w + x) = w + x := max_eq_right (by linarith)
  have hymax : y ⊔ (h + y) = h + y := max_eq_right (by linarith)
  simp only [applyRotation, hb, Option.getD_some, htot]
  norm_num [cosDeg, sinDeg]
  refine ⟨?_, ?_, ?_, ?_⟩
  · rw [hxmin]
  · rw [hymin]
  · rw [hxmax, hxmin]
    congr 1
    ring
  · rw [hymax, hymin]
    congr 1
    ring

/-- The invariant the rotation engine maintains on a document whose
metadata was created from the fresh state: base box `(x, y, w, h)`,
original width/height strings `w0`/`h0`, current cumulative angle `t`.
At a full turn (`t = 0`) the written viewBox is the base box up to the
`%.6f` formatting and the original strings are restored. -/
def goodRot (x y w h : ℚ) (w0 h0 : String) (d : SvgDoc) (t : ℤ) : Prop :=
  d.viewBox.isSome = true ∧
  d.baseViewbox = some (x, y, w, h) ∧
  d.baseWidth = some w0 ∧
  d.baseHeight = some h0 ∧
  d.angleAttr = some t ∧
  d.hasWrapper = true ∧
  (t = 0 ∨ t = 90 ∨ t = 180 ∨ t = 270) ∧
  (t = 0 → d.viewBox = some (fmt6 x, fmt6 y, fmt6 w, fmt6 h) ∧
    d.width = w0 ∧ d.height = h0)

/-- One `applyRotation` step preserves the invariant, advancing the
cumulative angle. -/
theorem applyRotation_good (x y w h : ℚ) (w0 h0 : String) (doc : SvgDoc)
    (vb : ℚ × ℚ × ℚ × ℚ) (t n : ℤ)
    (hw : 0 ≤ w) (hh : 0 ≤ h)
    (hb : doc.baseViewbox = some (x, y, w, h))
    (hbw : doc.baseWidth = some w0)
    (hbh : doc.baseHeight = some h0)
    (hang : doc.angleAttr = some t)
    (hwrap : doc.hasWrapper = true)
    (ht : t = 0 ∨ t = 90 ∨ t = 180 ∨ t = 270)
    (hn : n = 90 ∨ n = 180 ∨ n = 270) :
    goodRot x y w h w0 h0 (applyRotation doc vb n) ((t + n) % 360) := by
  have hmeta := applyRotation_meta doc vb n
  have hangle : (applyRotation doc vb n).angleAttr = some ((t + n) % 360) := by
    rw [hmeta.2.2.2.2.1, hang]
    simp only [Option.getD_some]
    congr 1
    omega
  refine ⟨hmeta.2.2.2.2.2, hmeta.1.trans hb, hmeta.2.1.trans hbw,
    hmeta.2.2.1.trans hbh, hangle, hmeta.2.2.2.1.trans hwrap, by omega, ?_⟩
  intro h0tot
  have htot : ((doc.angleAttr.getD 0) % 360 + n) % 360 = 0 := by
    rw [hang]
    simp only [Option.getD_some]
    omega
  have hz := applyRotation_total_zero doc vb x y w h n hw hh hb htot
  refine ⟨hz.1, ?_, ?_⟩
  · rw [hz.2.1, hbw]
    rfl
  · rw [hz.2.2, hbh]
    rfl

/-- The first route rotation of a fresh document establishes the
invariant. -/
theorem rotate_step_fresh (x y w h : ℚ) (d0 : SvgDoc) (a : ℤ) (d' : SvgDoc)
    (flag : Bool) (hw : 0 ≤ w) (hh : 0 ≤ h)
    (hvb : d0.viewBox = some (x, y, w, h)) (hbase : d0.baseViewbox = none)
    (hok : rotate_file d0 a = .ok (d', flag)) (hnz : ¬ a % 360 = 0) :
    goodRot x y w h d0.width d0.height d' (a % 360) := by
  rcases rotate_file_spec hok with ⟨h0, -, -⟩ | ⟨hmem, -, vb, d1, hv, rfl⟩
  · exact absurd h0 hnz
  · have hf := ensureViewbox_fields hv
    have hvbeq : vb = (x, y, w, h) := by
      rcases hf.2.2.2.2.2.2.2.2 with hnone | hsome
      · rw [hvb] at hnone; exact absurd hnone (by simp)
      · rw [hvb] at hsome; exact (Option.some.inj hsome).symm
    have hmeta := @ensureMeta_of_absent d1 vb
      (by rw [hf.2.2.2.1, hbase])
    have := applyRotation_good x y w h d0.width d0.height (ensureMeta d1 vb)
      vb 0 (a % 360) hw hh
      (by rw [hmeta.1, hvbeq])
      (by rw [hmeta.2.1, hf.1])
      (by rw [hmeta.2.2.1, hf.2.1])
      hmeta.2.2.2.1
      hmeta.2.2.2.2.2.2.2
      (Or.inl rfl)
      (by omega)
    have heq : (0 + a % 360) % 360 = a % 360 := by omega
    rw [heq] at this
    exact this

/-- A route rotation of a document satisfying the invariant preserves
it, adding the input angle to the cumulative angle. -/
theorem rotate_step_good (x y w h : ℚ) (w0 h0 : String) (d : SvgDoc)
    (t a : ℤ) (d' : SvgDoc) (flag : Bool)
    (hw : 0 ≤ w) (hh : 0 ≤ h)
    (hg : goodRot x y w h w0 h0 d t)
    (hok : rotate_file d a = .ok (d', flag)) :
    goodRot x y w h w0 h0 d' ((t + a) % 360) := by
  have htmem := hg.2.2.2.2.2.2.1
  rcases rotate_file_spec hok with ⟨h0, rfl, -⟩ | ⟨hmem, -, vb, d1, hv, rfl⟩
  · have heq : (t + a) % 360 = t := by omega
    rw [heq]
    exact hg
  · have hf := ensureViewbox_fields hv
    have hmeta : ensureMeta d1 vb = d1 :=
      ensureMeta_of_present vb (hf.2.2.1.trans hg.2.2.2.2.2.1)
        (by rw [hf.2.2.2.1, hg.2.1]; rfl)
    have := applyRotation_good x y w h w0 h0 (ensureMeta d1 vb) vb t (a % 360)
      hw hh
      (by rw [hmeta, hf.2.2.2.1, hg.2.1])
      (by rw [hmeta, hf.2.2.2.2.1, hg.2.2.1])
      (by rw [hmeta, hf.2.2.2.2.2.1, hg.2.2.2.1])
      (by rw [hmeta, hf.2.2.2.2.2.2.1, hg.2.2.2.2.1])
      (by rw [hmeta, hf.2.2.1, hg.2.2.2.2.2.1])
      htmem
      (by omega)
    have heq : (t + a % 360) % 360 = (t + a) % 360 := by omega
    rw [heq] at this
    exact this

/-- The fold invariant: a sequence of route rotations starting from a
fresh document leaves it fresh (all angles were full turns) or in the
invariant state at the accumulated angle. -/
theorem foldRotate_inv (x y w h : ℚ) (d0 : SvgDoc)
    (hw : 0 ≤ w) (hh : 0 ≤ h)
    (hvb : d0.viewBox = some (x, y, w, h)) (hbase : d0.baseViewbox = none) :
    ∀ (l : List ℤ) (d : SvgDoc) (t : ℤ) (d' : SvgDoc),
      (d = d0 ∧ t = 0 ∨ goodRot x y w h d0.width d0.height d t) →
      foldRotate d l = .ok d' →
      (d' = d0 ∧ (t + l.sum) % 360 = 0 % 360 ∨
       goodRot x y w h d0.width d0.height d' ((t + l.sum) % 360)) := by
  intro l
  induction l with
  | nil =>
    intro d t d' hinv hok
    obtain rfl : d = d' := Except.ok.inj hok
    rcases hinv with ⟨rfl, rfl⟩ | hg
    · left
      exact ⟨rfl, by simp⟩
    · right
      have htmem := hg.2.2.2.2.2.2.1
      have heq : (t + ([] : List ℤ).sum) % 360 = t := by
        simp only [List.sum_nil]
        omega
      rw [heq]
      exact hg
  | cons a rest ih =>
    intro d t d' hinv hok
    rw [foldRotate] at hok
    cases hra : rotate_file d a with
    | error e =>
      rw [hra] at hok
      exact absurd hok (by simp)
    | ok dr =>
      rw [hra] at hok
      simp only [] at hok
      obtain ⟨dmid, flag⟩ := dr
      have hsum : (a :: rest).sum = a + rest.sum := List.sum_cons
      rcases hinv with ⟨rfl, rfl⟩ | hg
      · by_cases hz : a % 360 = 0
        · rcases rotate_file_spec hra with ⟨-, hd, -⟩ | ⟨hmem, -, -⟩
          · rw [show ((dmid, flag) : SvgDoc × Bool).1 = dmid from rfl] at hok
            subst hd
            have := ih dmid 0 d' (Or.inl ⟨rfl, rfl⟩) hok
            rw [hsum]
            rcases this with ⟨hd', hs⟩ | hgood
            · left
              exact ⟨hd', by omega⟩
            · right
              have heq : (0 + rest.sum) % 360 = (0 + (a + rest.sum)) % 360 := by
                omega
              rw [heq] at hgood
              exact hgood
          · omega
        · have hstep := rotate_step_fresh x y w h d a dmid flag hw hh hvb hbase
            hra hz
          rw [show ((dmid, flag) : SvgDoc × Bool).1 = dmid from rfl] at hok
          have := ih dmid (a % 360) d' (Or.inr hstep) hok
          rw [hsum]
          rcases this with ⟨hd', hs⟩ | hgood
          · left
            exact ⟨hd', by omega⟩
          · right
            have heq : (a % 360 + rest.sum) % 360 = (0 + (a + rest.sum)) % 360 := by
              omega
            rw [heq] at hgood
            exact hgood
      · have htmem := hg.2.2.2.2.2.2.1
        have hstep := rotate_step_good x y w h d0.width d0.height d t a dmid
          flag hw hh hg hra
        rw [show ((dmid, flag) : SvgDoc × Bool).1 = dmid from rfl] at hok
        have := ih dmid ((t + a) % 360) d' (Or.inr hstep) hok
        rw [hsum]
        rcases this with ⟨hd', hs⟩ | hgood
        · left
          exact ⟨hd', by omega⟩
        · right
          have heq : ((t + a) % 360 + rest.sum) % 360 = (t + (a + rest.sum)) % 360 := by
            omega
          rw [heq] at hgood
          exact hgood

/-- Claim C1: for every SVG document with a parseable, well-formed
viewBox and no prior rotation metadata, and every sequence of rotate
requests accepted by the route whose angles sum to a multiple of 360°,
the final viewBox components equal the original within 1e-6 (the only
deviation being the `%.6f` decimal formatting of the written values) and
the width/height attribute strings equal the originals exactly. -/
theorem c1_full_circle_roundtrip (d0 : SvgDoc) (x y w h : ℚ) (l : List ℤ)
    (d : SvgDoc)
    (hvb : d0.viewBox = some (x, y, w, h)) (hw : 0 ≤ w) (hh : 0 ≤ h)
    (hbase : d0.baseViewbox = none)
    (hsum : l.sum % 360 = 0)
    (hrun : foldRotate d0 l = .ok d) :
    ∃ x2 y2 w2 h2, d.viewBox = some (x2, y2, w2, h2) ∧
      |x2 - x| ≤ 1 / 1000000 ∧ |y2 - y| ≤ 1 / 1000000 ∧
      |w2 - w| ≤ 1 / 1000000 ∧ |h2 - h| ≤ 1 / 1000000 ∧
      d.width = d0.width ∧ d.height = d0.height := by
  have hres := foldRotate_inv x y w h d0 hw hh hvb hbase l d0 0 d
    (Or.inl ⟨rfl, rfl⟩) hrun
  rcases hres with ⟨rfl, -⟩ | hgood
  · exact ⟨x, y, w, h, hvb, by norm_num, by norm_num, by norm_num, by norm_num,
      rfl, rfl⟩
  · have hzero : (0 + l.sum) % 360 = 0 := by omega
    rw [hzero] at hgood
    have hfin := hgood.2.2.2.2.2.2.2 rfl
    refine ⟨fmt6 x, fmt6 y, fmt6 w, fmt6 h, hfin.1, ?_, ?_, ?_, ?_,
      hfin.2.1, hfin.2.2⟩ <;> exact fmt6_close _

/-- `sampleDoc` after four 90° rotations through the route: exactly the
original geometry. -/
def sampleDocFull : SvgDoc :=
  { viewBox := some (0, 0, 100, 50), width := "100mm", height := "50mm",
    hasWrapper := true, baseViewbox := some (0, 0, 100, 50),
    baseWidth := some "100mm", baseHeight := some "50mm",
    angleAttr := some 0, transform := none }

set_option maxHeartbeats 4000000 in
/-- Witness for C1: four 90° rotations of the sample document return its
viewBox and width/height to the original values within 1e-6. -/
theorem c1_full_circle_roundtrip_witness :
    ∃ x2 y2 w2 h2, sampleDocFull.viewBox = some (x2, y2, w2, h2) ∧
      |x2 - 0| ≤ 1 / 1000000 ∧ |y2 - 0| ≤ 1 / 1000000 ∧
      |w2 - 100| ≤ 1 / 1000000 ∧ |h2 - 50| ≤ 1 / 1000000 ∧
      sampleDocFull.width = sampleDoc.width ∧
      sampleDocFull.height = sampleDoc.height :=
  c1_full_circle_roundtrip sampleDoc 0 0 100 50 [90, 90, 90, 90] sampleDocFull
    rfl (by norm_num) (by norm_num) rfl (by decide)
    (by with_unfolding_all decide)

end PlotterStudio
